import Mathlib

/-!
Verification of the session lifecycle and membership engine of a bill-splitting
chat bot.  The definitions below are a shallow embedding of the Python source:

* `app/database/sql/session.py` (session store and lifecycle operations),
* `app/database/sql/user.py` (user directory),
* `app/logic/message_receiver.py` (command dispatcher),
* `app/integrations/kapso.py` (delivery helpers),
* `app/routers/webhooks/kapso.py` (webhook entry point).

The database is modelled as an explicit record of user rows, session rows and
membership rows; every SQLAlchemy query is translated to the corresponding
list operation and every Python exception to a constructor of `DBError`,
returned through `Except`.  Stateful operations return the resulting database
next to the `Except` value, so that error paths visibly leave the state
unchanged exactly where the Python code raises before mutating.
-/

set_option autoImplicit false

namespace BillBot

/-- Session lifecycle status, from `SessionStatus` in the models: the two
states ACTIVE and CLOSED. -/
inductive SessionStatus where
  | ACTIVE
  | CLOSED
  deriving DecidableEq, Repr

/-- A row of the `users` table: integer primary key, phone number (unique by
migration `e19835d69ac8`), display name. -/
structure User where
  id : Nat
  phone : String
  name : String
  deriving DecidableEq, Repr

/-- A row of the `sessions` table: UUID primary key (held in canonical
lowercase hyphenated form, as PostgreSQL renders `gen_random_uuid()`),
optional description, owner id, lifecycle status. -/
structure Session where
  id : String
  description : Option String
  owner_id : Nat
  status : SessionStatus
  deriving DecidableEq, Repr

/-- The database state: user rows, session rows, the `session_users`
many-to-many rows as (session id, user id) pairs in insertion order, and a
count of invoice rows (enough for the claims about invoice creation). -/
structure DB where
  users : List User
  sessions : List Session
  memberships : List (String × Nat)
  invoices : Nat
  deriving DecidableEq, Repr

/-- The Python exceptions that cross the boundaries of the embedded
functions.  `SendErr` stands for a delivery (requests) exception raised by
`send_text_message`; `AttrErr` for an `AttributeError` on `None`. -/
inductive DBError where
  | NoResultFound (msg : String)
  | MultipleResultsFound
  | ValueErr (msg : String)
  | ZeroDivision
  | SendErr
  | AttrErr
  deriving DecidableEq, Repr

/-- Decidable equality for `Except`, so that the embedded operations can
be evaluated and compared on concrete inputs. -/
instance {ε α : Type} [DecidableEq ε] [DecidableEq α] :
    DecidableEq (Except ε α) := fun x y =>
  match x, y with
  | .ok a, .ok b =>
    if h : a = b then .isTrue (by rw [h]) else
      .isFalse (by intro he; cases he; exact h rfl)
  | .error a, .error b =>
    if h : a = b then .isTrue (by rw [h]) else
      .isFalse (by intro he; cases he; exact h rfl)
  | .ok _, .error _ => .isFalse (by intro he; cases he)
  | .error _, .ok _ => .isFalse (by intro he; cases he)

/-! ## Python `uuid.UUID` string parsing

`get_session_by_id` and `join_session` validate identifiers through
`uuid.UUID(session_id)`.  CPython proceeds by deleting every occurrence of
`urn:` and of `uuid:`, stripping braces from both ends, deleting every
hyphen, requiring exactly 32 remaining characters, and handing them to
`int(hex, 16)`; the resulting value must lie in `[0, 2^128)` (automatic
here: at most 32 hex digits remain, and a minus sign cannot survive the
hyphen deletion).  `int(_, 16)` itself strips leading and trailing
whitespace, allows an optional sign, an optional `0x`/`0X` prefix with at
most one underscore directly after it, and hexadecimal digits of either
case separated by single underscores.  The definitions below reproduce
that algorithm character by character on ASCII input; CPython additionally
transliterates non-ASCII decimal digits and non-ASCII whitespace to ASCII
before parsing, which this model does not cover — the theorem about
malformed identifiers therefore restricts itself to ASCII strings, where
the model and the interpreter agree exactly. -/

/-- Boolean test that `p` is an initial segment of `l`. -/
def startsWith : List Char → List Char → Bool
  | [], _ => true
  | _ :: _, [] => false
  | p :: ps, c :: cs => p == c && startsWith ps cs

/-- Worker for `removeSub`, structurally recursive on a fuel argument that
is at least the length of the list (each step consumes at least one
character and one unit of fuel). -/
def removeSubAux (p : Char) (ps : List Char) : Nat → List Char → List Char
  | 0, l => l
  | _ + 1, [] => []
  | fuel + 1, c :: cs =>
    if startsWith (p :: ps) (c :: cs) then
      removeSubAux p ps fuel (cs.drop ps.length)
    else c :: removeSubAux p ps fuel cs

/-- Delete every non-overlapping occurrence of the pattern `p :: ps`,
scanning left to right, exactly as Python `str.replace(pat, "")` does. -/
def removeSub (p : Char) (ps : List Char) (l : List Char) : List Char :=
  removeSubAux p ps l.length l

/-- Drop the characters of `bad` from both ends, as Python `str.strip` with a
character set does. -/
def stripChars (bad : List Char) (l : List Char) : List Char :=
  ((l.dropWhile (fun c => bad.contains c)).reverse.dropWhile
    (fun c => bad.contains c)).reverse

/-- Hexadecimal digit, either case. -/
def isHexChar (c : Char) : Bool :=
  (decide ((48 : Nat) ≤ c.toNat) && decide (c.toNat ≤ 57)) ||
  (decide ((97 : Nat) ≤ c.toNat) && decide (c.toNat ≤ 102)) ||
  (decide ((65 : Nat) ≤ c.toNat) && decide (c.toNat ≤ 70))

/-- Opening curly brace character. -/
def braceO : Char := Char.ofNat 123

/-- Closing curly brace character. -/
def braceC : Char := Char.ofNat 125

/-- The whitespace characters `int()` strips from the ends of an ASCII
string: space, tab, newline, vertical tab, form feed, carriage return. -/
def pyIntSpace (c : Char) : Bool :=
  c == ' ' || (decide ((9 : Nat) ≤ c.toNat) && decide (c.toNat ≤ 13))

/-- Numeric value of a hexadecimal digit of either case. -/
def hexVal (c : Char) : Nat :=
  if c.toNat ≤ 57 then c.toNat - 48
  else if c.toNat ≤ 70 then c.toNat - 55
  else c.toNat - 87

/-- Digits after the first: `int()` accepts single underscores, each
surrounded by digits on both sides. -/
def parseHexTail (acc : Nat) : List Char → Option Nat
  | [] => some acc
  | ['_'] => none
  | '_' :: c :: rest =>
    if isHexChar c then parseHexTail (acc * 16 + hexVal c) rest else none
  | c :: rest =>
    if isHexChar c then parseHexTail (acc * 16 + hexVal c) rest else none

/-- The digit sequence proper: it must begin with a hexadecimal digit (a
leading underscore is rejected except directly after a base prefix). -/
def parseHexFirst : List Char → Option Nat
  | [] => none
  | c :: rest => if isHexChar c then parseHexTail (hexVal c) rest else none

/-- After the optional sign: an optional `0x`/`0X` base prefix, with at
most one underscore allowed directly after the prefix, then the digits. -/
def parseAfterSign : List Char → Option Nat
  | '0' :: 'x' :: '_' :: rest => parseHexFirst rest
  | '0' :: 'X' :: '_' :: rest => parseHexFirst rest
  | '0' :: 'x' :: rest => parseHexFirst rest
  | '0' :: 'X' :: rest => parseHexFirst rest
  | l => parseHexFirst l

/-- Embeds `int(hex, 16)` on ASCII input, composed with the UUID range
check `0 <= value < 2^128`: strip whitespace from both ends, read an
optional sign, prefix and digits.  The upper range bound is automatic for
at most 32 hexadecimal digits; a minus sign never actually reaches this
function because the caller has already deleted every hyphen, but int()'s
behavior is kept: a negative value passes the range check only when it is
zero. -/
def pyIntHexValue (l : List Char) : Option Nat :=
  let l1 := (((l.dropWhile pyIntSpace).reverse).dropWhile pyIntSpace).reverse
  match l1 with
  | '+' :: rest => parseAfterSign rest
  | '-' :: rest =>
    match parseAfterSign rest with
    | some 0 => some 0
    | _ => none
  | _ => parseAfterSign l1

/-- Hexadecimal digit character for a value below 16. -/
def natHexDigit (n : Nat) : Char :=
  if n < 10 then Char.ofNat (48 + n) else Char.ofNat (87 + n)

/-- The 32-digit lowercase rendering of a 128-bit value, the form in which
`uuid.UUID` presents the parsed identifier. -/
def natToHex32 (n : Nat) : List Char :=
  (List.range 32).map (fun i => natHexDigit (n / 16 ^ (31 - i) % 16))

/-- The string-processing phase of `uuid.UUID(s)`: the 32 lowercase
hexadecimal digits of the accepted value, `none` when the constructor
raises `ValueError`.  Exact on ASCII strings (see the section comment). -/
def pyUUIDparse (s : String) : Option (List Char) :=
  let l1 := removeSub 'u' ['r', 'n', ':'] s.data
  let l2 := removeSub 'u' ['u', 'i', 'd', ':'] l1
  let l3 := stripChars [braceO, braceC] l2
  let l4 := l3.filter (fun c => c != '-')
  if l4.length == 32 then
    match pyIntHexValue l4 with
    | some v => some (natToHex32 v)
    | none => none
  else none

/-- Render 32 hex digits in the canonical 8-4-4-4-12 hyphenated form, the
form in which PostgreSQL stores and returns `uuid` values. -/
def hexToCanon (h : List Char) : String :=
  String.mk ((h.take 8) ++ '-' :: ((h.drop 8).take 4) ++
    '-' :: ((h.drop 12).take 4) ++ '-' :: ((h.drop 16).take 4) ++
    '-' :: (h.drop 20))

/-- Canonical string of the UUID value denoted by `s`, when `uuid.UUID(s)`
accepts it. -/
def uuidCanon (s : String) : Option String :=
  (pyUUIDparse s).map hexToCanon

/-- Lowercase hexadecimal digit. -/
def isLowerHexChar (c : Char) : Bool :=
  (decide ((48 : Nat) ≤ c.toNat) && decide (c.toNat ≤ 57)) ||
  (decide ((97 : Nat) ≤ c.toNat) && decide (c.toNat ≤ 102))

/-- Modelled from the spec: the canonical session-identifier grammar of
section 6 — a lowercase hyphenated 36-character version-4 UUID token
(hyphens at positions 8, 13, 18, 23; version nibble `4`; variant nibble in
`8/9/a/b`; lowercase hex elsewhere).  Stated from the spec words in order to
compare it with the parser actually used by the code (`pyUUIDparse`). -/
def canonicalUUIDv4 (s : String) : Bool :=
  let l := s.data
  l.length == 36 &&
  (List.range 36).all (fun i =>
    let c := l.getD i ' '
    if i == 8 || i == 13 || i == 18 || i == 23 then c == '-'
    else if i == 14 then c == '4'
    else if i == 19 then c == '8' || c == '9' || c == 'a' || c == 'b'
    else isLowerHexChar c)

/-! ## User directory (`app/database/sql/user.py`) -/

/-- SQLAlchemy `.one()` on a query result: `NoResultFound` when empty,
`MultipleResultsFound` on two or more rows. -/
def oneOf {α : Type} (msg : String) : List α → Except DBError α
  | [] => .error (.NoResultFound msg)
  | [a] => .ok a
  | _ :: _ :: _ => .error .MultipleResultsFound

/-- SQLAlchemy `.one_or_none()`: `none` when empty, `MultipleResultsFound`
on two or more rows. -/
def oneOrNone {α : Type} : List α → Except DBError (Option α)
  | [] => .ok none
  | [a] => .ok (some a)
  | _ :: _ :: _ => .error .MultipleResultsFound

/-- Embeds `get_user_by_phone_number`: `one_or_none` on the phone filter,
with the surrounding `except Exception` clause turning any error (including
`MultipleResultsFound`) into `None`. -/
def get_user_by_phone_number (db : DB) (phone : String) : Option User :=
  match db.users.filter (fun u => u.phone == phone) with
  | [u] => some u
  | _ => none

/-! ## Session store queries (`app/database/sql/session.py`) -/

/-- Sessions where the user is the owner and the status is ACTIVE — the
first query of `get_active_session_by_user_id`. -/
def ownerActiveSessions (db : DB) (uid : Nat) : List Session :=
  db.sessions.filter (fun s => s.owner_id == uid && s.status == .ACTIVE)

/-- Membership-row test: some `session_users` row links `sid` and `uid`.
The Python queries compare the parsed UUID value; session ids are held in
canonical form, so the comparison is string equality on canonical ids. -/
def membershipExists (db : DB) (sid : String) (uid : Nat) : Bool :=
  db.memberships.any (fun m => m.1 == sid && m.2 == uid)

/-- The ORM relationship `user.sessions`: each membership row of the user,
in insertion order, resolved to its session row. -/
def userSessions (db : DB) (uid : Nat) : List Session :=
  (db.memberships.filter (fun m => m.2 == uid)).filterMap
    (fun m => db.sessions.find? (fun s => s.id == m.1))

/-- Embeds `get_active_session_by_user_id`: `one_or_none` over the owned
ACTIVE sessions (raising `MultipleResultsFound` when the user owns two);
on a match, return it at once; otherwise load the user row with `.one()`
and return the first ACTIVE session among the user's membership sessions,
raising `NoResultFound` when there is none. -/
def get_active_session_by_user_id (db : DB) (uid : Nat) :
    Except DBError Session :=
  match oneOrNone (ownerActiveSessions db uid) with
  | .error e => .error e
  | .ok (some s) => .ok s
  | .ok none =>
    match oneOf ("No user " ++ toString uid)
        (db.users.filter (fun u => u.id == uid)) with
    | .error e => .error e
    | .ok _ =>
      match (userSessions db uid).find? (fun s => s.status == .ACTIVE) with
      | some s => .ok s
      | none =>
        .error (.NoResultFound
          ("No active session found for user " ++ toString uid))

/-- Embeds `has_active_session`: calls the previous query, converting
`NoResultFound` to `false`; every other exception propagates. -/
def has_active_session (db : DB) (uid : Nat) : Except DBError Bool :=
  match get_active_session_by_user_id db uid with
  | .ok _ => .ok true
  | .error (.NoResultFound _) => .ok false
  | .error e => .error e

/-- Embeds `get_session_by_id`: parse the identifier with `uuid.UUID`,
raising `ValueError` on failure before any store access, then `.one()` on
the id filter. -/
def get_session_by_id (db : DB) (sid : String) : Except DBError Session :=
  match uuidCanon sid with
  | none => .error (.ValueErr ("Invalid session ID format: " ++ sid))
  | some c =>
    oneOf "session" (db.sessions.filter (fun s => s.id == c))

/-- Embeds `get_all_session_users`: parse the identifier (the raw
`uuid.UUID` call at the top of the function raises the bare `ValueError`),
resolve the session, load the owner with `.one()`, then join the
membership rows (owner excluded) against the users table.  The result is
owner first, then the other members in row order. -/
def get_all_session_users (db : DB) (sid : String) :
    Except DBError (List (Nat × String)) :=
  match uuidCanon sid with
  | none => .error (.ValueErr "badly formed hexadecimal UUID string")
  | some c =>
    match get_session_by_id db sid with
    | .error e => .error e
    | .ok s =>
      match oneOf "owner" (db.users.filter (fun u => u.id == s.owner_id)) with
      | .error e => .error e
      | .ok owner =>
        let parts :=
          (db.memberships.filter
            (fun m => m.1 == c && m.2 != s.owner_id)).filterMap
            (fun m => (db.users.find? (fun u => u.id == m.2)).map
              (fun u => (u.id, u.phone)))
        .ok ((owner.id, owner.phone) :: parts)

/-! ## Session store mutations -/

/-- Set the status of the session with the given id (identity on every
other row). -/
def setSessionStatus (db : DB) (sid : String) (st : SessionStatus) : DB :=
  { db with
    sessions := db.sessions.map
      (fun s => if s.id == sid then { s with status := st } else s) }

/-- Append a membership row. -/
def addMembership (db : DB) (sid : String) (uid : Nat) : DB :=
  { db with memberships := db.memberships ++ [(sid, uid)] }

/-- Embeds `close_session`: query the session row with the raw identifier
string (`Session.id == session_id` — no format validation happens first;
the driver coerces the bound string, so a row matches exactly when the
string denotes its UUID), resolve the requester by phone (`NoResultFound`
when absent), refuse with `ValueError` when the requester is not the
owner, otherwise flip the status to CLOSED and commit. -/
def close_session (db : DB) (sid : String) (phone : String) :
    Except DBError Session × DB :=
  match oneOf "session" (db.sessions.filter
      (fun s => uuidCanon sid == some s.id)) with
  | .error e => (.error e, db)
  | .ok s =>
    match get_user_by_phone_number db phone with
    | none =>
      (.error (.NoResultFound ("User with phone " ++ phone ++ " not found")),
        db)
    | some u =>
      if s.owner_id != u.id then
        (.error (.ValueErr "Solo el creador de la sesión puede cerrarla"), db)
      else
        (.ok { s with status := .CLOSED },
          setSessionStatus db s.id .CLOSED)

/-- Embeds `create_session`: resolve the owner by phone (a missing user
makes `user.id` raise `AttributeError` on `None`), then insert a new
ACTIVE session whose generated UUID is the `freshId` argument. -/
def create_session (db : DB) (description : String) (phone : String)
    (freshId : String) : Except DBError Session × DB :=
  match get_user_by_phone_number db phone with
  | none => (.error .AttrErr, db)
  | some u =>
    let s : Session :=
      { id := freshId, description := some description,
        owner_id := u.id, status := .ACTIVE }
    (.ok s, { db with sessions := db.sessions ++ [s] })

/-- Embeds `join_session`.  Order of the Python code: resolve the user by
phone (`NoResultFound` when absent); resolve the target through
`get_session_by_id` (UUID validation plus `.one()`); `ValueError` when the
target is not ACTIVE; return `(target, true)` without mutation when a
membership row for (target, user) exists; otherwise, when
`has_active_session` holds (its `MultipleResultsFound` propagates), run the
best-effort close inside `try/except`: look the active session up again and
close it when its canonical id differs from the *raw* input string — any
failure inside this block is swallowed, which the `closeFails` flag models
by skipping the block; finally append the membership row, commit, refresh
the target and return `(target, false)`. -/
def join_session (closeFails : Bool) (db : DB) (sid : String)
    (phone : String) : Except DBError (Session × Bool) × DB :=
  match get_user_by_phone_number db phone with
  | none =>
    (.error (.NoResultFound ("User with phone " ++ phone ++ " not found")),
      db)
  | some user =>
    match get_session_by_id db sid with
    | .error e => (.error e, db)
    | .ok target =>
      if target.status != .ACTIVE then
        (.error (.ValueErr "No puedes unirte a una sesión cerrada"), db)
      else if membershipExists db target.id user.id then
        (.ok (target, true), db)
      else
        match has_active_session db user.id with
        | .error e => (.error e, db)
        | .ok hasAct =>
          let db1 :=
            if hasAct && !closeFails then
              match get_active_session_by_user_id db user.id with
              | .ok a =>
                if a.id != sid then setSessionStatus db a.id .CLOSED else db
              | .error _ => db
            else db
          let db2 := addMembership db1 target.id user.id
          match db2.sessions.find? (fun s => s.id == target.id) with
          | some s2 => (.ok (s2, false), db2)
          | none => (.ok (target, false), db2)

/-! ## Command dispatcher (`app/logic/message_receiver.py`)

Outbound texts are abstracted into the `Msg` constructors below, one per
distinct template used by the handler; delivery failures are injected
through a `fails` oracle on the recipient phone number, standing for a
`requests` exception raised by `send_text_message`. -/

/-- The classified action returned by the external `process_user_command`
collaborator, with the payload fields the handler reads. -/
inductive AgentAction where
  | createSession (description : String)
  | closeSession (session_id : Option String)
  | joinSession (session_id : Option String)
  | assignItem
  | unknown
  deriving DecidableEq, Repr

/-- The distinct user-facing message templates of the handler. -/
inductive Msg where
  | tooManyActiveSessions
  | noActiveSession
  | sessionCreated
  | sessionIdLink (sid : String)
  | noActiveToClose
  | cannotFindActive
  | sessionClosed (description : Option String) (isOwner : Bool)
  | sessionNotFoundClose
  | valueText (msg : String)
  | noSessionIdProvided
  | alreadyInSession (description : Option String)
  | joinedSession (description : Option String)
  | sessionNotFoundJoin
  | joinValueText (msg : String)
  | joinGenericError
  | assignComingSoon
  | unknownNoSession
  | unknownHasSession
  | invoiceCreated
  | shareSessionPrompt
  deriving DecidableEq, Repr

/-- Result of running a handler: the database afterwards, the chronological
log of attempted sends as (recipient, message) pairs, and the exception, if
any, that escaped the handler uncaught. -/
structure HOut where
  db : DB
  sent : List (String × Msg)
  err : Option DBError
  deriving DecidableEq, Repr

/-- Attempt the sends in order; a failing send is still logged as an
attempt, raises, and stops the sequence (there is no try/except around the
individual `send_text_message` calls of the handler). -/
def sendSeq (fails : String → Bool) (db : DB) :
    List (String × Msg) → HOut
  | [] => { db := db, sent := [], err := none }
  | (dest, m) :: rest =>
    if fails dest then
      { db := db, sent := [(dest, m)], err := some .SendErr }
    else
      let o := sendSeq fails db rest
      { o with sent := (dest, m) :: o.sent }

/-- One send attempt. -/
def sendOne (fails : String → Bool) (db : DB) (dest : String) (m : Msg) :
    HOut :=
  sendSeq fails db [(dest, m)]

/-- Embeds the notification loop of the CLOSE_SESSION branch: one
`send_text_message` per (user id, phone) pair, message chosen by comparing
the user id with the owner id.  The loop body has no try/except, so the
first failing send aborts the remainder of the loop and its exception
propagates. -/
def notifyAll (fails : String → Bool) (description : Option String)
    (ownerId : Nat) : List (Nat × String) → List (String × Msg) × Option DBError
  | [] => ([], none)
  | (uid, ph) :: rest =>
    let m := Msg.sessionClosed description (uid == ownerId)
    if fails ph then ([(ph, m)], some .SendErr)
    else
      let (s, e) := notifyAll fails description ownerId rest
      ((ph, m) :: s, e)

/-- Embeds `check_user_has_active_session`: `false` when the phone resolves
to no user, otherwise `has_active_session` (whose `MultipleResultsFound`
propagates uncaught). -/
def check_user_has_active_session (db : DB) (sender : String) :
    Except DBError Bool :=
  match get_user_by_phone_number db sender with
  | none => .ok false
  | some u => has_active_session db u.id

/-- A delivery oracle under which no send fails. -/
def neverFails : String → Bool := fun _ => false

/-- Embeds `handle_text_message`, branch by branch.  `freshId` is the UUID
the store would generate for a created session.  Every Python `except`
clause is reproduced at the call whose exceptions it covers; exceptions no
clause covers are reported in `HOut.err` (they escape the handler and reach
the webhook layer, and the sender gets nothing). -/
def handle_text_message (fails : String → Bool) (freshId : String)
    (db : DB) (act : AgentAction) (sender : String) : HOut :=
  match act with
  | .createSession description =>
    match check_user_has_active_session db sender with
    | .error e => { db := db, sent := [], err := some e }
    | .ok true => sendOne fails db sender .tooManyActiveSessions
    | .ok false =>
      match create_session db description sender freshId with
      | (.error e, db1) => { db := db1, sent := [], err := some e }
      | (.ok s, db1) =>
        sendSeq fails db1
          [(sender, .sessionCreated), (sender, .sessionIdLink s.id)]
  | .closeSession osid =>
    match check_user_has_active_session db sender with
    | .error e => { db := db, sent := [], err := some e }
    | .ok false => sendOne fails db sender .noActiveToClose
    | .ok true =>
      let resolved : Except HOut String :=
        match osid with
        | some sid => .ok sid
        | none =>
          match get_user_by_phone_number db sender with
          | none => .error { db := db, sent := [], err := some .AttrErr }
          | some u =>
            match get_active_session_by_user_id db u.id with
            | .ok a => .ok a.id
            | .error (.NoResultFound _) =>
              .error (sendOne fails db sender .cannotFindActive)
            | .error .MultipleResultsFound =>
              .error (sendOne fails db sender .cannotFindActive)
            | .error e => .error { db := db, sent := [], err := some e }
      match resolved with
      | .error out => out
      | .ok sid =>
        match get_all_session_users db sid with
        | .error (.NoResultFound _) =>
          sendOne fails db sender .sessionNotFoundClose
        | .error (.ValueErr m) => sendOne fails db sender (.valueText m)
        | .error e => { db := db, sent := [], err := some e }
        | .ok allUsers =>
          match close_session db sid sender with
          | (.error (.NoResultFound _), db1) =>
            sendOne fails db1 sender .sessionNotFoundClose
          | (.error (.ValueErr m), db1) =>
            sendOne fails db1 sender (.valueText m)
          | (.error e, db1) => { db := db1, sent := [], err := some e }
          | (.ok closed, db1) =>
            match get_user_by_phone_number db1 sender with
            | none => { db := db1, sent := [], err := some .AttrErr }
            | some owner =>
              let (msgs, e) :=
                notifyAll fails closed.description owner.id allUsers
              { db := db1, sent := msgs, err := e }
  | .joinSession osid =>
    match osid with
    | none => sendOne fails db sender .noSessionIdProvided
    | some sid =>
      match join_session false db sid sender with
      | (.ok (s, true), db1) =>
        sendOne fails db1 sender (.alreadyInSession s.description)
      | (.ok (s, false), db1) =>
        sendOne fails db1 sender (.joinedSession s.description)
      | (.error (.NoResultFound _), db1) =>
        sendOne fails db1 sender .sessionNotFoundJoin
      | (.error (.ValueErr m), db1) =>
        sendOne fails db1 sender (.joinValueText m)
      | (.error _, db1) => sendOne fails db1 sender .joinGenericError
  | .assignItem =>
    match check_user_has_active_session db sender with
    | .error e => { db := db, sent := [], err := some e }
    | .ok false => sendOne fails db sender .noActiveSession
    | .ok true => sendOne fails db sender .assignComingSoon
  | .unknown =>
    match check_user_has_active_session db sender with
    | .error e => { db := db, sent := [], err := some e }
    | .ok false => sendOne fails db sender .unknownNoSession
    | .ok true => sendOne fails db sender .unknownHasSession

/-! ## Receipt handling and the webhook entry point -/

/-- The extracted receipt fields the handler reads.  Amounts are rationals
standing for the numeric values of the Python floats; the only fact used is
whether `total_amount` is zero, which is exactly when the Python division
raises `ZeroDivisionError`. -/
structure Receipt where
  tip : Rat
  total_amount : Rat
  deriving DecidableEq, Repr

/-- Modelled from the spec: `create_invoice_with_items`
(`app/database/sql/invoice.py` is not part of the sources) attaches the
receipt to the sender's active session, which per the handler's except
clauses is resolved through the active-session query; on success an invoice
row is persisted and the session id is available for the share link. -/
def create_invoice_with_items (db : DB) (sender : String) :
    Except DBError String × DB :=
  match get_user_by_phone_number db sender with
  | none => (.error (.NoResultFound "user"), db)
  | some u =>
    match get_active_session_by_user_id db u.id with
    | .error e => (.error e, db)
    | .ok s => (.ok s.id, { db with invoices := db.invoices + 1 })

/-- Embeds `handle_receipt`: reply with the no-active-session text when the
sender has none; otherwise compute `tip / total_amount` — an unguarded
division that raises `ZeroDivisionError` when `total_amount` is zero,
before the try block and before any invoice is created; otherwise create
the invoice and send the three reply messages, mapping
`MultipleResultsFound` and `NoResultFound` to their texts. -/
def handle_receipt (fails : String → Bool) (db : DB) (r : Receipt)
    (sender : String) : HOut :=
  match check_user_has_active_session db sender with
  | .error e => { db := db, sent := [], err := some e }
  | .ok false => sendOne fails db sender .noActiveSession
  | .ok true =>
    if r.total_amount == 0 then
      { db := db, sent := [], err := some .ZeroDivision }
    else
      match create_invoice_with_items db sender with
      | (.error .MultipleResultsFound, db1) =>
        sendOne fails db1 sender .tooManyActiveSessions
      | (.error (.NoResultFound _), db1) =>
        sendOne fails db1 sender .noActiveSession
      | (.error e, db1) => { db := db1, sent := [], err := some e }
      | (.ok sid, db1) =>
        sendSeq fails db1
          [(sender, .invoiceCreated), (sender, .shareSessionPrompt),
            (sender, .sessionIdLink sid)]

/-- The OCR collaborator's extraction result. -/
inductive OCRDoc where
  | receipt (r : Receipt)
  | transfer
  deriving DecidableEq, Repr

/-- Embeds `handle_image_message`: run the OCR collaborator (whose outcome,
success or exception, is the `ocr` argument — download and scan are
external calls) and dispatch on the document type; a transfer is dropped by
the empty `handle_transfer`. -/
def handle_image_message (fails : String → Bool) (db : DB)
    (ocr : Except DBError OCRDoc) (sender : String) : HOut :=
  match ocr with
  | .error e => { db := db, sent := [], err := some e }
  | .ok (.receipt r) => handle_receipt fails db r sender
  | .ok .transfer => { db := db, sent := [], err := none }

/-- The kinds of webhook payload the router distinguishes: an image message
(carrying the OCR outcome), a text message (carrying the classified
action), or an unsupported type. -/
inductive InMsg where
  | image (ocr : Except DBError OCRDoc)
  | text (act : AgentAction)
  | other
  deriving Repr

/-- An inbound webhook payload: conversation phone and contact name, the
message sender, and the message. -/
structure Payload where
  phone : String
  contactName : String
  sender : String
  msg : InMsg
  deriving Repr

/-- A fresh user id, as the serial primary key would produce. -/
def freshUserId (db : DB) : Nat :=
  (db.users.map User.id).foldr (fun a b => max a b) 0 + 1

/-- Embeds `check_existing_user_logic`: look the conversation phone up and
create the user when absent; any creation failure is swallowed (the user
may have been created concurrently). -/
def check_existing_user_logic (db : DB) (phone : String) (name : String) :
    DB :=
  match get_user_by_phone_number db phone with
  | some _ => db
  | none =>
    { db with users := db.users ++ [⟨freshUserId db, phone, name⟩] }

/-- Embeds `kapso_received_webhook`: ensure the user exists, dispatch on
the message kind, catch and log every exception, and return HTTP 200 in
the `finally` block whatever happened.  The result is the status code, the
database afterwards and the attempted sends. -/
def kapso_received_webhook (fails : String → Bool) (freshId : String)
    (db : DB) (p : Payload) : Nat × DB × List (String × Msg) :=
  let db1 := check_existing_user_logic db p.phone p.contactName
  match p.msg with
  | .image ocr =>
    let o := handle_image_message fails db1 ocr p.sender
    (200, o.db, o.sent)
  | .text act =>
    let o := handle_text_message fails freshId db1 act p.sender
    (200, o.db, o.sent)
  | .other => (200, db1, [])

/-- Sessions with status ACTIVE in which the user is owner or holds a
membership row — the spec's `HasActiveSession` candidate set (INV-2),
used to state the lifecycle properties. -/
def activeSessionsOf (db : DB) (uid : Nat) : List Session :=
  db.sessions.filter (fun s =>
    s.status == .ACTIVE &&
      (s.owner_id == uid || membershipExists db s.id uid))

/-- Status of the session with the given id, when it exists. -/
def statusOf (db : DB) (sid : String) : Option SessionStatus :=
  (db.sessions.find? (fun s => s.id == sid)).map Session.status

/-! ## Concrete fixtures used by witnesses and counterexamples -/

/-- Canonical version-4 identifier used for the first fixture session. -/
def uuidA : String := "aaaaaaaa-1111-4111-8111-aaaaaaaaaaa1"

/-- Canonical version-4 identifier used for the second fixture session. -/
def uuidB : String := "bbbbbbbb-2222-4222-8222-bbbbbbbbbbb2"

/-- Uppercase spelling of `uuidA`: it violates the canonical lowercase
grammar but `uuid.UUID` accepts it. -/
def uuidAupper : String := "AAAAAAAA-1111-4111-8111-AAAAAAAAAAA1"

/-- Fixture user, phone `+1`, owner of the fixture sessions. -/
def uA : User := { id := 1, phone := "+1", name := "ana" }

/-- Fixture user, phone `+2`. -/
def uB : User := { id := 2, phone := "+2", name := "bob" }

/-- Fixture user, phone `+3`. -/
def uC : User := { id := 3, phone := "+3", name := "cleo" }

/-- ACTIVE fixture session with id `uuidA`, owned by user 1. -/
def sA : Session :=
  { id := uuidA, description := some "cena", owner_id := 1,
    status := .ACTIVE }

/-- ACTIVE fixture session with id `uuidB`, owned by user 2. -/
def sB : Session :=
  { id := uuidB, description := some "asado", owner_id := 2,
    status := .ACTIVE }

/-- Fixture database: user 1 owning the ACTIVE session `sA`. -/
def dbOwner : DB :=
  { users := [uA], sessions := [sA], memberships := [], invoices := 0 }

/-- Fixture database: users 1 and 2, user 1 owning the ACTIVE session
`sA`. -/
def dbTwoUsers : DB :=
  { users := [uA, uB], sessions := [sA], memberships := [], invoices := 0 }

/-- Fixture database: user 1 owns ACTIVE `sA` and also holds a membership
row in ACTIVE `sB` (owned by user 2) — the ambiguous-active situation. -/
def dbAmbig : DB :=
  { users := [uA, uB], sessions := [sA, sB],
    memberships := [(uuidB, 1)], invoices := 0 }

/-- Fixture database: user 1 owns two ACTIVE sessions. -/
def dbDoubleOwner : DB :=
  { users := [uA], sessions := [sA, { sB with owner_id := 1 }],
    memberships := [], invoices := 0 }

/-- Fixture database: the CLOSED variant of `sA`, owner user 1 only. -/
def dbClosed : DB :=
  { users := [uA], sessions := [{ sA with status := .CLOSED }],
    memberships := [], invoices := 0 }

/-- Fixture database: CLOSED `sA` with user 2 recorded as a member. -/
def dbClosedMember : DB :=
  { users := [uA, uB], sessions := [{ sA with status := .CLOSED }],
    memberships := [(uuidA, 2)], invoices := 0 }

/-- Fixture database: user 2 is a member of ACTIVE `sA` owned by user 1. -/
def dbMember : DB :=
  { users := [uA, uB], sessions := [sA], memberships := [(uuidA, 2)],
    invoices := 0 }

/-- Canonical version-4 identifier whose two leading nibbles are zero, so
that 0x-prefixed, whitespace-padded and underscored spellings of the same
value also fit in 32 characters. -/
def uuidZ : String := "00aaaaaa-1111-4111-8111-aaaaaaaaaaa1"

/-- ACTIVE fixture session with id `uuidZ`, owned by user 1. -/
def sZ : Session :=
  { id := uuidZ, description := some "zeta", owner_id := 1,
    status := .ACTIVE }

/-- Fixture database: user 1 owning the ACTIVE session `sZ`. -/
def dbZ : DB :=
  { users := [uA], sessions := [sZ], memberships := [], invoices := 0 }

/-- Fixture database for the close fan-out: user 1 owns ACTIVE `sA`, users
2 and 3 hold membership rows. -/
def dbFan : DB :=
  { users := [uA, uB, uC], sessions := [sA],
    memberships := [(uuidA, 2), (uuidA, 3)], invoices := 0 }

/-- Delivery oracle that fails exactly for the owner phone `+1`, the first
recipient of the fan-out. -/
def failsOwner : String → Bool := fun p => p == "+1"

/-- Fixture database for session switching: user 3 is a mere participant
of ACTIVE `sA` (owned by user 1) and joins ACTIVE `sB` (owned by
user 2). -/
def dbSwitch : DB :=
  { users := [uA, uB, uC], sessions := [sA, sB],
    memberships := [(uuidA, 3)], invoices := 0 }

/-! ## Helper lemmas -/

theorem oneOf_eq_ok {α : Type} {msg : String} {l : List α} {a : α}
    (h : oneOf msg l = .ok a) : l = [a] := by
  match l with
  | [] => simp [oneOf] at h
  | [x] =>
    simp only [oneOf, Except.ok.injEq] at h
    rw [h]
  | _ :: _ :: _ => simp [oneOf] at h

theorem find?_eq_some_of_unique {α : Type} {p : α → Bool} {l : List α}
    {a : α} (hmem : a ∈ l) (hpa : p a = true)
    (huniq : ∀ x ∈ l, p x = true → x = a) : l.find? p = some a := by
  induction l with
  | nil => cases hmem
  | cons h t ih =>
    by_cases hph : p h = true
    · have : h = a := huniq h (List.mem_cons_self h t) hph
      subst this
      simp [List.find?, hph]
    · have hne : h ≠ a := by
        intro he
        subst he
        exact hph hpa
      have hmem' : a ∈ t := by
        rcases List.mem_cons.mp hmem with h1 | h1
        · exact absurd h1.symm hne
        · exact h1
      have := ih hmem' (fun x hx hpx => huniq x (List.mem_cons_of_mem _ hx) hpx)
      simp only [List.find?]
      rw [Bool.eq_false_iff.mpr hph]
      exact this

theorem filter_eq_singleton_of_unique {α : Type} {p : α → Bool}
    {l : List α} {a : α} (hnd : l.Nodup) (hmem : a ∈ l) (hpa : p a = true)
    (huniq : ∀ x ∈ l, p x = true → x = a) : l.filter p = [a] := by
  induction l with
  | nil => cases hmem
  | cons h t ih =>
    have hnd' : t.Nodup := (List.nodup_cons.mp hnd).2
    have hnotmem : h ∉ t := (List.nodup_cons.mp hnd).1
    by_cases hph : p h = true
    · have hha : h = a := huniq h (List.mem_cons_self h t) hph
      subst hha
      have hnone : t.filter p = [] := by
        apply List.filter_eq_nil_iff.mpr
        intro x hx
        intro hpx
        have : x = h := huniq x (List.mem_cons_of_mem _ hx) hpx
        subst this
        exact hnotmem hx
      simp [List.filter, hph, hnone]
    · have hne : h ≠ a := by
        intro he
        subst he
        exact hph hpa
      have hmem' : a ∈ t := by
        rcases List.mem_cons.mp hmem with h1 | h1
        · exact absurd h1.symm hne
        · exact h1
      have := ih hnd' hmem'
        (fun x hx hpx => huniq x (List.mem_cons_of_mem _ hx) hpx)
      simp only [List.filter]
      rw [Bool.eq_false_iff.mpr hph]
      exact this

theorem eq_of_session_id_eq {l : List Session} {x y : Session}
    (hnd : (l.map Session.id).Nodup) (hx : x ∈ l) (hy : y ∈ l)
    (hid : x.id = y.id) : x = y := by
  induction l with
  | nil => cases hx
  | cons h t ih =>
    simp only [List.map, List.nodup_cons] at hnd
    rcases List.mem_cons.mp hx with h1 | h1 <;>
      rcases List.mem_cons.mp hy with h2 | h2
    · rw [h1, h2]
    · exfalso
      apply hnd.1
      rw [← h1, hid]
      exact List.mem_map_of_mem Session.id h2
    · exfalso
      apply hnd.1
      rw [← h2, ← hid]
      exact List.mem_map_of_mem Session.id h1
    · exact ih hnd.2 h1 h2

theorem find?_session_id {l : List Session} {s : Session}
    (hnd : (l.map Session.id).Nodup) (hmem : s ∈ l) :
    l.find? (fun x => x.id == s.id) = some s := by
  apply find?_eq_some_of_unique hmem (by simp)
  intro x hx hpx
  exact eq_of_session_id_eq hnd hx hmem (by simpa using hpx)

theorem filter_map_comm {α β : Type} (f : α → β) (p : β → Bool)
    (l : List α) :
    (l.map f).filter p = (l.filter (fun x => p (f x))).map f := by
  induction l with
  | nil => rfl
  | cons h t ih =>
    by_cases hph : p (f h) = true
    · simp [List.filter, hph, ih]
    · simp only [List.map, List.filter]
      rw [Bool.eq_false_iff.mpr hph, ih]

theorem membershipExists_addMembership (db : DB) (sid : String) (uid : Nat)
    (x : String) (y : Nat) :
    membershipExists (addMembership db sid uid) x y =
      (membershipExists db x y || (sid == x && uid == y)) := by
  simp [membershipExists, addMembership, List.any_append]

theorem sessions_setSessionStatus (db : DB) (sid : String)
    (st : SessionStatus) :
    (setSessionStatus db sid st).sessions =
      db.sessions.map (fun s => if s.id == sid then { s with status := st }
        else s) := rfl

theorem memberships_setSessionStatus (db : DB) (sid : String)
    (st : SessionStatus) :
    (setSessionStatus db sid st).memberships = db.memberships := rfl

theorem membershipExists_setStatus (db : DB) (sid : String)
    (st : SessionStatus) (x : String) (y : Nat) :
    membershipExists (setSessionStatus db sid st) x y =
      membershipExists db x y := rfl

theorem eq_of_user_id_eq {l : List User} {x y : User}
    (hnd : (l.map User.id).Nodup) (hx : x ∈ l) (hy : y ∈ l)
    (hid : x.id = y.id) : x = y := by
  induction l with
  | nil => cases hx
  | cons h t ih =>
    simp only [List.map, List.nodup_cons] at hnd
    rcases List.mem_cons.mp hx with h1 | h1 <;>
      rcases List.mem_cons.mp hy with h2 | h2
    · rw [h1, h2]
    · exfalso
      apply hnd.1
      rw [← h1, hid]
      exact List.mem_map_of_mem User.id h2
    · exfalso
      apply hnd.1
      rw [← h2, ← hid]
      exact List.mem_map_of_mem User.id h1
    · exact ih hnd.2 h1 h2

theorem filter_user_id_eq {l : List User} {u : User}
    (hnd : (l.map User.id).Nodup) (hmem : u ∈ l) :
    l.filter (fun x => x.id == u.id) = [u] := by
  apply filter_eq_singleton_of_unique (List.Nodup.of_map _ hnd) hmem
    (by simp)
  intro x hx hpx
  exact eq_of_user_id_eq hnd hx hmem (by simpa using hpx)

theorem get_user_mem {db : DB} {p : String} {u : User}
    (hu : get_user_by_phone_number db p = some u) : u ∈ db.users := by
  unfold get_user_by_phone_number at hu
  match hf : db.users.filter (fun x => x.phone == p) with
  | [] => rw [hf] at hu; cases hu
  | [x] =>
    rw [hf] at hu
    have hx : x ∈ db.users.filter (fun v => v.phone == p) := by
      rw [hf]
      exact List.mem_singleton_self x
    have hxu : x = u := by
      injection hu
    rw [← hxu]
    exact List.mem_of_mem_filter hx
  | a :: b :: t => rw [hf] at hu; cases hu

theorem get_session_mem {db : DB} {sid : String} {s : Session}
    (hs : get_session_by_id db sid = .ok s) : s ∈ db.sessions := by
  unfold get_session_by_id at hs
  match hc : uuidCanon sid with
  | none => rw [hc] at hs; cases hs
  | some c =>
    rw [hc] at hs
    have hfil := oneOf_eq_ok hs
    have : s ∈ db.sessions.filter (fun x => x.id == c) := by
      rw [hfil]
      exact List.mem_singleton_self s
    exact List.mem_of_mem_filter this

theorem find?_id_map_close (l : List Session) (sid0 t : String)
    (st : SessionStatus) :
    (l.map (fun s => if s.id == sid0 then { s with status := st }
        else s)).find? (fun x => x.id == t) =
      (l.find? (fun x => x.id == t)).map
        (fun s => if s.id == sid0 then { s with status := st } else s) := by
  induction l with
  | nil => rfl
  | cons h tl ih =>
    simp only [List.map_cons, List.find?]
    have hid : (if h.id == sid0 then { h with status := st } else h).id =
        h.id := by
      by_cases h0 : (h.id == sid0) = true <;> simp [h0]
    rw [hid]
    by_cases hp : (h.id == t) = true
    · rw [hp]
      rfl
    · have hpf : (h.id == t) = false := by
        simpa using hp
      rw [hpf, ih]

theorem ownerActive_eq_filter (db : DB) (uid : Nat) :
    ownerActiveSessions db uid =
      (activeSessionsOf db uid).filter (fun s => s.owner_id == uid) := by
  unfold ownerActiveSessions activeSessionsOf
  rw [List.filter_filter]
  apply List.filter_congr
  intro a _
  cases ho : a.owner_id == uid <;>
    cases hs : a.status == SessionStatus.ACTIVE <;> simp [ho, hs]

theorem mem_userSessions_of {db : DB} {uid : Nat} {s : Session}
    (hrow : (s.id, uid) ∈ db.memberships)
    (hfind : db.sessions.find? (fun x => x.id == s.id) = some s) :
    s ∈ userSessions db uid := by
  unfold userSessions
  apply List.mem_filterMap.mpr
  refine ⟨(s.id, uid), ?_, hfind⟩
  exact List.mem_filter.mpr ⟨hrow, by simp⟩

theorem userSessions_subset {db : DB} {uid : Nat} {x : Session}
    (hx : x ∈ userSessions db uid) :
    x ∈ db.sessions ∧ membershipExists db x.id uid = true := by
  unfold userSessions at hx
  rcases List.mem_filterMap.mp hx with ⟨m, hm, hfind⟩
  have hmf := List.mem_filter.mp hm
  have hxmem : x ∈ db.sessions := List.mem_of_find?_eq_some hfind
  have hxid := List.find?_some hfind
  refine ⟨hxmem, ?_⟩
  unfold membershipExists
  apply List.any_eq_true.mpr
  refine ⟨m, hmf.1, ?_⟩
  simp only [Bool.and_eq_true]
  refine ⟨?_, hmf.2⟩
  simp only [beq_iff_eq] at hxid ⊢
  exact hxid.symm

theorem membership_row_of_exists {db : DB} {sid : String} {uid : Nat}
    (h : membershipExists db sid uid = true) :
    (sid, uid) ∈ db.memberships := by
  unfold membershipExists at h
  rcases List.any_eq_true.mp h with ⟨m, hm, hp⟩
  rcases m with ⟨a, b⟩
  simp only [Bool.and_eq_true, beq_iff_eq] at hp
  rw [← hp.1, ← hp.2]
  exact hm

theorem get_active_of_unique (db : DB) (u : User) (s1 : Session)
    (hmemu : u ∈ db.users) (huid : (db.users.map User.id).Nodup)
    (hsids : (db.sessions.map Session.id).Nodup)
    (hprior : activeSessionsOf db u.id = [s1]) :
    get_active_session_by_user_id db u.id = .ok s1 := by
  have hoa := ownerActive_eq_filter db u.id
  rw [hprior] at hoa
  by_cases how : s1.owner_id = u.id
  · have h1 : ownerActiveSessions db u.id = [s1] := by
      rw [hoa]
      simp [List.filter, how]
    unfold get_active_session_by_user_id
    rw [h1]
    rfl
  · have h0 : ownerActiveSessions db u.id = [] := by
      rw [hoa]
      have hb : (s1.owner_id == u.id) = false := by
        simpa using how
      simp [List.filter, hb]
    have hufil : db.users.filter (fun x => x.id == u.id) = [u] :=
      filter_user_id_eq huid hmemu
    have hs1mem : s1 ∈ activeSessionsOf db u.id := by
      rw [hprior]
      exact List.mem_singleton_self _
    have hs1sess : s1 ∈ db.sessions := List.mem_of_mem_filter hs1mem
    have hs1p := List.of_mem_filter hs1mem
    simp only [Bool.and_eq_true, Bool.or_eq_true, beq_iff_eq] at hs1p
    have hs1act : s1.status = .ACTIVE := hs1p.1
    have hs1m : membershipExists db s1.id u.id = true := by
      rcases hs1p.2 with h | h
      · exact absurd h how
      · exact h
    have hfindrow : db.sessions.find? (fun x => x.id == s1.id) = some s1 :=
      find?_session_id hsids hs1sess
    have hs1us : s1 ∈ userSessions db u.id :=
      mem_userSessions_of (membership_row_of_exists hs1m) hfindrow
    have hfind : (userSessions db u.id).find?
        (fun s => s.status == SessionStatus.ACTIVE) = some s1 := by
      apply find?_eq_some_of_unique hs1us (by simp [hs1act])
      intro x hx hpx
      rcases userSessions_subset hx with ⟨hxs, hxm⟩
      have hxin : x ∈ activeSessionsOf db u.id := by
        unfold activeSessionsOf
        apply List.mem_filter.mpr
        refine ⟨hxs, ?_⟩
        simp only [Bool.and_eq_true, Bool.or_eq_true]
        exact ⟨by simpa using hpx, Or.inr hxm⟩
      rw [hprior] at hxin
      exact List.eq_of_mem_singleton hxin
    unfold get_active_session_by_user_id
    rw [h0]
    simp only [oneOrNone, hufil, oneOf, hfind]

/-! ## Claim C1 -/

/-- C1, counterexample.  User 3 is a *mere participant* of ACTIVE `sA` and
joins the different ACTIVE session `sB`.  The claim says `sA` must stay
unchanged for its other members; but the code closes whichever active
session it finds without checking ownership, so `sA` becomes CLOSED for
everyone. -/
theorem join_closes_participant_prior_cex :
    (join_session false dbSwitch uuidB "+3").1 = .ok (sB, false) ∧
    statusOf (join_session false dbSwitch uuidB "+3").2 uuidA =
      some .CLOSED := by
  decide

/-- C1, amended: when user `u` has exactly one prior active session `s1`
(as owner *or* as mere participant) and joins the different ACTIVE session
`s2` of which `u` is not yet a member, the join succeeds with
`already_joined = false` and appends the membership row; the prior session
`s1` is closed *unconditionally* — whether `u` owned it or merely
participated — after which `s2` is the only active session `u` belongs
to; and when the best-effort closing step fails, the join still succeeds
identically, only leaving every status unchanged. -/
theorem join_session_switches_active (db : DB) (p : String) (u : User)
    (s1 s2 : Session)
    (hu : get_user_by_phone_number db p = some u)
    (husers : (db.users.map User.id).Nodup)
    (hsids : (db.sessions.map Session.id).Nodup)
    (hs2 : get_session_by_id db s2.id = .ok s2)
    (hact2 : s2.status = .ACTIVE)
    (hmem2 : membershipExists db s2.id u.id = false)
    (hprior : activeSessionsOf db u.id = [s1])
    (hdiff : s1.id ≠ s2.id) :
    join_session false db s2.id p =
      (.ok (s2, false),
        addMembership (setSessionStatus db s1.id .CLOSED) s2.id u.id) ∧
    activeSessionsOf
        (addMembership (setSessionStatus db s1.id .CLOSED) s2.id u.id)
        u.id = [s2] ∧
    join_session true db s2.id p =
      (.ok (s2, false), addMembership db s2.id u.id) := by
  have humem : u ∈ db.users := get_user_mem hu
  have hga : get_active_session_by_user_id db u.id = .ok s1 :=
    get_active_of_unique db u s1 humem husers hsids hprior
  have hha : has_active_session db u.id = .ok true := by
    unfold has_active_session
    rw [hga]
  have hs2sess : s2 ∈ db.sessions := get_session_mem hs2
  have hb : (s2.status != SessionStatus.ACTIVE) = false := by
    rw [hact2]
    rfl
  have hne : (s1.id != s2.id) = true := by
    simp [bne_iff_ne, hdiff]
  have hid21 : (s2.id == s1.id) = false := by
    simp
    intro h
    exact hdiff h.symm
  have hfind2 : db.sessions.find? (fun x => x.id == s2.id) = some s2 :=
    find?_session_id hsids hs2sess
  have hfs2 : (if s2.id == s1.id then
      { s2 with status := SessionStatus.CLOSED } else s2) = s2 := by
    rw [hid21]
    rfl
  have hfindmap : (setSessionStatus db s1.id .CLOSED).sessions.find?
      (fun x => x.id == s2.id) = some s2 := by
    rw [sessions_setSessionStatus, find?_id_map_close, hfind2]
    show some (if s2.id == s1.id then
      { s2 with status := SessionStatus.CLOSED } else s2) = some s2
    rw [hfs2]
  refine ⟨?_, ?_, ?_⟩
  · simp [join_session, hu, hs2, hb, hmem2, hha, hga, hne, hfindmap,
      addMembership]
  · have hnodup2 : ((addMembership (setSessionStatus db s1.id .CLOSED)
        s2.id u.id).sessions.map Session.id).Nodup := by
      have hsame : (addMembership (setSessionStatus db s1.id .CLOSED)
          s2.id u.id).sessions.map Session.id =
          db.sessions.map Session.id := by
        show (db.sessions.map (fun s => if s.id == s1.id then
          { s with status := SessionStatus.CLOSED } else s)).map Session.id
          = db.sessions.map Session.id
        rw [List.map_map]
        apply List.map_congr_left
        intro a _
        by_cases h0 : a.id = s1.id <;> simp [h0]
      rw [hsame]
      exact hsids
    have hmem2' : s2 ∈ (addMembership (setSessionStatus db s1.id .CLOSED)
        s2.id u.id).sessions := by
      show s2 ∈ db.sessions.map (fun s => if s.id == s1.id then
        { s with status := SessionStatus.CLOSED } else s)
      exact List.mem_map.mpr ⟨s2, hs2sess, hfs2⟩
    unfold activeSessionsOf
    apply filter_eq_singleton_of_unique (List.Nodup.of_map _ hnodup2)
      hmem2'
    · simp [hact2, membershipExists_addMembership]
    · intro y hy hpy
      have hy' : y ∈ db.sessions.map (fun s => if s.id == s1.id then
          { s with status := SessionStatus.CLOSED } else s) := hy
      rcases List.mem_map.mp hy' with ⟨x, hx, hfx⟩
      by_cases h1 : (x.id == s1.id) = true
      · exfalso
        rw [← hfx] at hpy
        rw [h1] at hpy
        simp at hpy
      · have hfxx : y = x := by
          rw [← hfx]
          have h1f : (x.id == s1.id) = false := by
            simpa using h1
          rw [h1f]
          rfl
        subst hfxx
        rw [membershipExists_addMembership, membershipExists_setStatus]
          at hpy
        by_cases h2 : (y.id == s2.id) = true
        · exact eq_of_session_id_eq hsids hx hs2sess (by simpa using h2)
        · exfalso
          have h2f : (s2.id == y.id) = false := by
            simp
            intro h
            simp at h2
            exact h2 h.symm
          rw [h2f] at hpy
          simp only [Bool.false_and, Bool.or_false] at hpy
          have hyin : y ∈ activeSessionsOf db u.id := by
            unfold activeSessionsOf
            exact List.mem_filter.mpr ⟨hx, hpy⟩
          rw [hprior] at hyin
          have : y = s1 := List.eq_of_mem_singleton hyin
          rw [this] at h1
          simp at h1
  · simp [join_session, hu, hs2, hb, hmem2, hha, hga, hfind2,
      addMembership]

/-- C1, witness for the amended theorem at `dbSwitch`: participant 3
joins `sB`; the prior session `sA` is closed even though user 3 did not
own it, afterwards `sB` is user 3\'s only active session, and with the
best-effort close failing the join still succeeds. -/
theorem join_session_switches_active_witness :
    join_session false dbSwitch uuidB "+3" =
      (.ok (sB, false),
        addMembership (setSessionStatus dbSwitch uuidA .CLOSED) uuidB 3) ∧
    activeSessionsOf
        (addMembership (setSessionStatus dbSwitch uuidA .CLOSED) uuidB 3)
        3 = [sB] ∧
    join_session true dbSwitch uuidB "+3" =
      (.ok (sB, false), addMembership dbSwitch uuidB 3) :=
  join_session_switches_active dbSwitch "+3" uC sA sB (by decide)
    (by decide) (by decide) (by decide) (by decide) (by decide)
    (by decide) (by decide)

/-! ## Claim C2 -/

/-- C2, counterexample.  The claim states that `CloseSession` by any phone
number other than the owner\'s always fails with PermissionDenied; but for
a phone number with no user row the requester lookup fails first and
`close_session` raises `NoResultFound`, not the ownership `ValueError`. -/
theorem close_session_unregistered_cex :
    close_session dbOwner uuidA "+9" =
      (.error (.NoResultFound "User with phone +9 not found"), dbOwner) := by
  decide

/-- C2, amended: for every requester phone that resolves to an existing
user other than the session owner, `close_session` fails with the
ownership `ValueError` (PermissionDenied) and returns the database
unchanged — whatever the session status is. -/
theorem close_session_nonowner_denied (db : DB) (sid phone : String)
    (u : User) (s : Session)
    (hu : get_user_by_phone_number db phone = some u)
    (hl : db.sessions.filter (fun x => uuidCanon sid == some x.id) = [s])
    (hno : s.owner_id ≠ u.id) :
    close_session db sid phone =
      (.error (.ValueErr "Solo el creador de la sesión puede cerrarla"),
        db) := by
  unfold close_session
  rw [hl]
  simp only [oneOf, hu]
  have hb : (s.owner_id != u.id) = true := by
    simp [bne_iff_ne, hno]
  rw [hb]
  simp

/-- C2, witness for the amended theorem: user 2 is registered and is not
the owner of session `sA`; the close attempt is denied and the database is
untouched. -/
theorem close_session_nonowner_denied_witness :
    close_session dbTwoUsers uuidA "+2" =
      (.error (.ValueErr "Solo el creador de la sesión puede cerrarla"),
        dbTwoUsers) :=
  close_session_nonowner_denied dbTwoUsers uuidA "+2" uB sA (by decide)
    (by decide) (by decide)

/-! ## Claim C5 -/

/-- C5, counterexample.  User 1 owns ACTIVE session `sA` and holds a
membership row in ACTIVE session `sB`: the candidate set has two sessions,
yet `get_active_session_by_user_id` silently returns the owned one and
`has_active_session` answers a plain `true` — no distinct ambiguity
condition is surfaced. -/
theorem ambiguous_active_silent_cex :
    activeSessionsOf dbAmbig 1 = [sA, sB] ∧
    get_active_session_by_user_id dbAmbig 1 = .ok sA ∧
    has_active_session dbAmbig 1 = .ok true := by
  decide

/-- C5, amended: the active-session query checks ownership first and
returns immediately on a single owned ACTIVE session, whatever membership
rows exist; the distinct `MultipleResultsFound` condition is surfaced only
when the user owns two or more ACTIVE sessions. -/
theorem active_session_owner_precedence (db : DB) (uid : Nat)
    (s : Session) :
    (ownerActiveSessions db uid = [s] →
      get_active_session_by_user_id db uid = .ok s ∧
      has_active_session db uid = .ok true) ∧
    (2 ≤ (ownerActiveSessions db uid).length →
      get_active_session_by_user_id db uid =
        .error .MultipleResultsFound) := by
  constructor
  · intro h
    have h1 : get_active_session_by_user_id db uid = .ok s := by
      unfold get_active_session_by_user_id
      rw [h]
      rfl
    refine ⟨h1, ?_⟩
    unfold has_active_session
    rw [h1]
  · intro h
    unfold get_active_session_by_user_id
    match hl : ownerActiveSessions db uid with
    | [] => rw [hl] at h; simp at h
    | [a] => rw [hl] at h; simp at h
    | a :: b :: t => rfl

/-- C5, witness for the amended theorem: at `dbAmbig` the owned ACTIVE
session wins, and at `dbDoubleOwner` the user owns two ACTIVE sessions and
`MultipleResultsFound` is raised. -/
theorem active_session_owner_precedence_witness :
    (get_active_session_by_user_id dbAmbig 1 = .ok sA ∧
      has_active_session dbAmbig 1 = .ok true) ∧
    get_active_session_by_user_id dbDoubleOwner 1 =
      .error .MultipleResultsFound :=
  ⟨(active_session_owner_precedence dbAmbig 1 sA).1 (by decide),
    (active_session_owner_precedence dbDoubleOwner 1 sA).2 (by decide)⟩

/-! ## Claim C6 -/

/-- C6, counterexample.  The claim states that joining a CLOSED session
always fails with Conflict regardless of requester; but an unregistered
requester phone fails earlier with `NoResultFound` (the user is resolved
before the session status is checked). -/
theorem join_closed_unregistered_cex :
    join_session false dbClosed uuidA "+9" =
      (.error (.NoResultFound "User with phone +9 not found"),
        dbClosed) := by
  decide

/-- C6, amended: for every requester phone that resolves to an existing
user — including one already recorded as a member of the session — joining
a CLOSED session fails with the Conflict `ValueError` and the database is
returned unchanged. -/
theorem join_closed_session_conflict (cf : Bool) (db : DB)
    (sid phone : String) (u : User) (s : Session)
    (hu : get_user_by_phone_number db phone = some u)
    (hs : get_session_by_id db sid = .ok s)
    (hst : s.status = .CLOSED) :
    join_session cf db sid phone =
      (.error (.ValueErr "No puedes unirte a una sesión cerrada"), db) := by
  unfold join_session
  rw [hu, hs]
  have hb : (s.status != SessionStatus.ACTIVE) = true := by
    rw [hst]
    rfl
  simp [hb]

/-- C6, witness for the amended theorem: user 2 holds a membership row in
the CLOSED session and still gets the Conflict error, with no change to
membership or status. -/
theorem join_closed_session_conflict_witness :
    join_session false dbClosedMember uuidA "+2" =
      (.error (.ValueErr "No puedes unirte a una sesión cerrada"),
        dbClosedMember) :=
  join_closed_session_conflict false dbClosedMember uuidA "+2" uB
    { sA with status := .CLOSED } (by decide) (by decide) (by decide)

/-! ## Claim C7 -/

/-- C7, counterexample.  Strings violating the canonical
lowercase-hyphenated grammar are not rejected as malformed: the uppercase
spelling of `uuidA` is accepted by `get_session_by_id`, which finds the
session, and `close_session` — which performs no format validation at all
— even closes the session through it; likewise the 0x-prefixed,
space-padded and underscored spellings that `int(hex, 16)` accepts all
reach the store lookup and resolve the session `sZ`. -/
theorem uuid_grammar_laxness_cex :
    canonicalUUIDv4 uuidAupper = false ∧
    canonicalUUIDv4 uuidA = true ∧
    get_session_by_id dbOwner uuidAupper = .ok sA ∧
    (close_session dbOwner uuidAupper "+1").1 =
      .ok { sA with status := .CLOSED } ∧
    canonicalUUIDv4 "0xaaaaaa111141118111aaaaaaaaaaa1" = false ∧
    get_session_by_id dbZ "0xaaaaaa111141118111aaaaaaaaaaa1" = .ok sZ ∧
    get_session_by_id dbZ " 0aaaaaa111141118111aaaaaaaaaaa1" = .ok sZ ∧
    get_session_by_id dbZ "0_aaaaaa111141118111aaaaaaaaaaa1" = .ok sZ := by
  decide

/-- C7, amended: the operations that parse the identifier
(`get_session_by_id`, and `join_session` through it) reject exactly the
strings `uuid.UUID` rejects — a set laxer than the canonical grammar,
since the parser also accepts uppercase, braced, urn-prefixed,
unhyphenated, 0x-prefixed, sign- or whitespace-padded and underscored
spellings — with the `ValueError` raised before any store lookup (the
outcome is the same for every database) and with no side effect;
`close_session` performs no format validation before its store lookup.
The identifier is assumed ASCII: that is the domain on which the embedded
parser coincides exactly with CPython, which first transliterates
non-ASCII decimal digits and whitespace (the hypothesis is about scope,
so the proof makes no use of it). -/
theorem malformed_id_rejected_before_lookup (db : DB) (sid phone : String)
    (u : User) (_hascii : ∀ c ∈ sid.data, c.toNat ≤ 127)
    (hbad : pyUUIDparse sid = none) :
    get_session_by_id db sid =
      .error (.ValueErr ("Invalid session ID format: " ++ sid)) ∧
    (get_user_by_phone_number db phone = some u →
      join_session false db sid phone =
        (.error (.ValueErr ("Invalid session ID format: " ++ sid)),
          db)) := by
  have hc : uuidCanon sid = none := by
    unfold uuidCanon
    rw [hbad]
    rfl
  have hg : get_session_by_id db sid =
      .error (.ValueErr ("Invalid session ID format: " ++ sid)) := by
    unfold get_session_by_id
    rw [hc]
  refine ⟨hg, ?_⟩
  intro hu
  unfold join_session
  rw [hu, hg]

/-- C7, witness for the amended theorem at a string the parser rejects. -/
theorem malformed_id_rejected_before_lookup_witness :
    get_session_by_id dbOwner "garbage" =
      .error (.ValueErr "Invalid session ID format: garbage") ∧
    join_session false dbOwner "garbage" "+1" =
      (.error (.ValueErr "Invalid session ID format: garbage"),
        dbOwner) := by
  have h := malformed_id_rejected_before_lookup dbOwner "garbage" "+1" uA
    (by decide) (by decide)
  exact ⟨h.1, h.2 (by decide)⟩

/-! ## Claim C3 -/

/-- C3, counterexample.  The spec counts the owner as a participant, but
the already-joined check of `join_session` only inspects membership rows:
the owner of `sA`, who has no membership row, gets `already_joined =
false` and a fresh membership row is inserted — a mutation, where the
claim requires none. -/
theorem join_owner_not_already_cex :
    join_session false dbOwner uuidA "+1" =
      (.ok (sA, false), addMembership dbOwner uuidA 1) := by
  decide

/-- C3, amended: a user who holds a membership row in the ACTIVE target
session gets `(session, already_joined = true)` with no mutation at all;
the owner without a membership row is instead treated as a new joiner —
the join returns `already_joined = false` and appends a membership row
(though no session status changes, since the active session found is the
target itself). -/
theorem join_already_member_conditions (cf : Bool) (db : DB) (p : String)
    (u : User) (s : Session)
    (hu : get_user_by_phone_number db p = some u)
    (hs : get_session_by_id db s.id = .ok s)
    (hact : s.status = .ACTIVE) :
    (membershipExists db s.id u.id = true →
      join_session cf db s.id p = (.ok (s, true), db)) ∧
    (membershipExists db s.id u.id = false → s.owner_id = u.id →
      ownerActiveSessions db u.id = [s] →
      (db.sessions.map Session.id).Nodup →
      join_session cf db s.id p =
        (.ok (s, false), addMembership db s.id u.id)) := by
  have hb : (s.status != SessionStatus.ACTIVE) = false := by
    rw [hact]
    rfl
  constructor
  · intro hmem
    simp [join_session, hu, hs, hb, hmem]
  · intro hmem hown hlist hnd
    have hga : get_active_session_by_user_id db u.id = .ok s := by
      unfold get_active_session_by_user_id
      rw [hlist]
      rfl
    have hha : has_active_session db u.id = .ok true := by
      unfold has_active_session
      rw [hga]
    have hsmem : s ∈ db.sessions := by
      have hs' := hs
      unfold get_session_by_id at hs'
      match hc : uuidCanon s.id with
      | none => rw [hc] at hs'; cases hs'
      | some c =>
        rw [hc] at hs'
        have hfil := oneOf_eq_ok hs'
        have : s ∈ db.sessions.filter (fun x => x.id == c) := by
          rw [hfil]
          exact List.mem_singleton_self s
        exact List.mem_of_mem_filter this
    have hfind : db.sessions.find? (fun x => x.id == s.id) = some s :=
      find?_session_id hnd hsmem
    have hsess : (addMembership db s.id u.id).sessions = db.sessions := rfl
    cases cf <;>
      simp [join_session, hu, hs, hb, hmem, hha, hga, hsess, hfind]

/-- C3, witness for the amended theorem: user 2 with a membership row in
ACTIVE `sA` re-joins with no mutation, and owner 1 without a membership
row re-joins `sA` getting `already_joined = false` and a new row. -/
theorem join_already_member_conditions_witness :
    join_session false dbMember uuidA "+2" = (.ok (sA, true), dbMember) ∧
    join_session false dbOwner uuidA "+1" =
      (.ok (sA, false), addMembership dbOwner uuidA 1) :=
  ⟨(join_already_member_conditions false dbMember "+2" uB sA (by decide)
      (by decide) (by decide)).1 (by decide),
    (join_already_member_conditions false dbOwner "+1" uA sA (by decide)
      (by decide) (by decide)).2 (by decide) (by decide) (by decide)
      (by decide)⟩

/-! ## Claim C4 -/

/-- C4: the session has three participants, and with no delivery failure
the close fan-out attempts exactly three sends, one per participant; but
when delivery to the first recipient raises, only that one attempt is made
— the loop has no per-recipient exception handling (unlike the unused
`send_text_message_to_multiple` helper), so the exception aborts the
remaining two attempts and escapes the handler. -/
theorem close_fanout_abort_on_failure :
    get_all_session_users dbFan uuidA =
      .ok [(1, "+1"), (2, "+2"), (3, "+3")] ∧
    (handle_text_message neverFails "f" dbFan (.closeSession (some uuidA))
        "+1").sent =
      [("+1", .sessionClosed (some "cena") true),
        ("+2", .sessionClosed (some "cena") false),
        ("+3", .sessionClosed (some "cena") false)] ∧
    (handle_text_message failsOwner "f" dbFan (.closeSession (some uuidA))
        "+1").sent =
      [("+1", .sessionClosed (some "cena") true)] ∧
    (handle_text_message failsOwner "f" dbFan (.closeSession (some uuidA))
        "+1").err = some .SendErr := by
  decide

/-! ## Claim C8 -/

/-- C8, counterexample.  When the sender owns two ACTIVE sessions — the
`Ambiguous` condition of the spec taxonomy — a CLOSE command dies in the
initial active-session check: `MultipleResultsFound` is raised outside any
try/except of the branch, no message at all is attempted to the sender,
and the webhook layer swallows the exception silently. -/
theorem close_command_silent_on_ambiguous_cex :
    handle_text_message neverFails "f" dbDoubleOwner (.closeSession none)
        "+1" =
      { db := dbDoubleOwner, sent := [],
        err := some .MultipleResultsFound } := by
  decide

/-- C8, amended: only the JOIN branch guarantees a reply on every failure
— its try/except ends with a catch-all, so for every database state and
every join command the handler attempts exactly one message to the sender
and lets no exception escape.  (The other branches map only their listed
exceptions; an unmapped one, as in the counterexample, reaches the user as
silence.) -/
theorem join_command_always_replies (freshId : String) (db : DB)
    (osid : Option String) (sender : String) :
    (handle_text_message neverFails freshId db (.joinSession osid)
      sender).err = none ∧
    ∃ m, (handle_text_message neverFails freshId db (.joinSession osid)
      sender).sent = [(sender, m)] := by
  cases osid with
  | none =>
    refine ⟨?_, ⟨Msg.noSessionIdProvided, ?_⟩⟩ <;>
      simp [handle_text_message, sendOne, sendSeq, neverFails]
  | some sid =>
    simp only [handle_text_message]
    rcases hj : join_session false db sid sender with ⟨r, db1⟩
    rcases r with e | ⟨s, flag⟩
    · match e with
      | .NoResultFound m =>
        refine ⟨?_, ⟨Msg.sessionNotFoundJoin, ?_⟩⟩ <;>
          simp [sendOne, sendSeq, neverFails]
      | .ValueErr m =>
        refine ⟨?_, ⟨Msg.joinValueText m, ?_⟩⟩ <;>
          simp [sendOne, sendSeq, neverFails]
      | .MultipleResultsFound =>
        refine ⟨?_, ⟨Msg.joinGenericError, ?_⟩⟩ <;>
          simp [sendOne, sendSeq, neverFails]
      | .ZeroDivision =>
        refine ⟨?_, ⟨Msg.joinGenericError, ?_⟩⟩ <;>
          simp [sendOne, sendSeq, neverFails]
      | .SendErr =>
        refine ⟨?_, ⟨Msg.joinGenericError, ?_⟩⟩ <;>
          simp [sendOne, sendSeq, neverFails]
      | .AttrErr =>
        refine ⟨?_, ⟨Msg.joinGenericError, ?_⟩⟩ <;>
          simp [sendOne, sendSeq, neverFails]
    · cases flag
      · refine ⟨?_, ⟨Msg.joinedSession s.description, ?_⟩⟩ <;>
          simp [sendOne, sendSeq, neverFails]
      · refine ⟨?_, ⟨Msg.alreadyInSession s.description, ?_⟩⟩ <;>
          simp [sendOne, sendSeq, neverFails]

/-! ## Claim C9 -/

/-- C9, confirmed: when the sender has an active session and the extracted
receipt has `total_amount = 0`, the unguarded division in `handle_receipt`
raises `ZeroDivisionError` before any invoice creation or reply — the
handler ends with the uncaught exception, no message sent, database
unchanged. -/
theorem handle_receipt_zero_total (fails : String → Bool) (db : DB)
    (r : Receipt) (sender : String)
    (hact : check_user_has_active_session db sender = .ok true)
    (hzero : r.total_amount = 0) :
    handle_receipt fails db r sender =
      { db := db, sent := [], err := some .ZeroDivision } := by
  unfold handle_receipt
  rw [hact]
  have hz : (r.total_amount == 0) = true := by
    rw [hzero]
    rfl
  simp [hz]

/-- C9, witness: user 2 participates in the ACTIVE fixture session and
sends a receipt whose total is zero. -/
theorem handle_receipt_zero_total_witness :
    handle_receipt neverFails dbMember { tip := 1, total_amount := 0 }
        "+2" =
      { db := dbMember, sent := [], err := some .ZeroDivision } :=
  handle_receipt_zero_total neverFails dbMember
    { tip := 1, total_amount := 0 } "+2" (by decide) (by decide)

/-! ## Claim C10 -/

/-- C10, confirmed: the webhook entry point answers HTTP 200 for every
inbound payload — image, text or unsupported type — whatever exception the
processing raises; errors are absorbed inside the handler and never reach
the transport. -/
theorem webhook_always_200 (fails : String → Bool) (freshId : String)
    (db : DB) (p : Payload) :
    (kapso_received_webhook fails freshId db p).1 = 200 := by
  rcases p with ⟨ph, cn, snd, m⟩
  cases m <;> rfl

end BillBot
